import Mathlib

/-!
Verification of the Graphlit MCP server (graphlit-mcp-server) against its
natural-language specification.

The repository is a TypeScript adapter exposing the Graphlit platform as MCP
tools and resources.  This development shallowly embeds the pure core of the
adapter - the content/conversation formatters, the resource and tool handler
envelopes, and the per-connector request construction - as total Lean
functions, and proves the specification claims about them.

Modelling conventions, used uniformly below:
- Nullable GraphQL fields (`Maybe<T>` in the generated client types) are
  `Option`; absent and `null` are both `none`.  Template-literal interpolation
  of an absent field renders the text `null` (the GraphQL client materialises
  requested fields as `null`, and JavaScript renders `null` in templates).
- JavaScript truthiness on a nullable string (`if (x)`) is `jsTruthyStr`:
  false exactly on `none` and the empty string.  Truthiness on `x?.length` is
  `jsTruthyLen`: false exactly on `none` and the empty list.
- `x || d` on numbers is `jsOrInt`: the default is taken when the value is
  absent or `0` (both falsy).
- Exception-based remote calls are embedded as `Except String` values or
  call-shaped functions returning `Except String`; a `try/catch` block is the
  corresponding `match`.
- `process.exit(1)` is the `HandlerOutcome.exits 1` constructor.
- Enumeration constants from the generated GraphQL types are carried as their
  wire strings (e.g. `FileTypes.Image` is the string "Image"), matching how
  the formatter interpolates them into the output.
-/

namespace GraphlitMcp

/-- JavaScript truthiness of a nullable string: `none` and `""` are falsy. -/
def jsTruthyStr : Option String → Bool
  | none => false
  | some s => !s.isEmpty

/-- JavaScript truthiness of `xs?.length` for a nullable array. -/
def jsTruthyLen {α : Type} : Option (List α) → Bool
  | none => false
  | some l => !l.isEmpty

/-- JavaScript `x || d` for a nullable number: absent and `0` take the default. -/
def jsOrInt : Option Int → Int → Int
  | none, d => d
  | some n, d => if n = 0 then d else n

/-- Template-literal interpolation of a nullable string field (`null` when absent). -/
def interpOpt : Option String → String
  | none => "null"
  | some s => s

/-- Template-literal interpolation of a nullable number field. -/
def interpOptNat : Option Nat → String
  | none => "null"
  | some n => toString n

/-- ASCII lowercasing, embedding `String.prototype.toLowerCase` as used on
enum wire strings. -/
def jsToLower (s : String) : String :=
  s.map Char.toLower

/-- The `ContentTypes` enumeration from the generated GraphQL types
(the members the adapter branches on or that appear in content records). -/
inductive ContentType
  | File
  | Email
  | Issue
  | Page
  | Post
  | Message
  | Text
  | Event
  deriving DecidableEq

/-- Wire string of a `ContentTypes` member, as interpolated into output text. -/
def ContentType.wire : ContentType → String
  | .File => "File"
  | .Email => "Email"
  | .Issue => "Issue"
  | .Page => "Page"
  | .Post => "Post"
  | .Message => "Message"
  | .Text => "Text"
  | .Event => "Event"

/-- Interpolation of the nullable `type` field. -/
def interpType : Option ContentType → String
  | none => "null"
  | some t => t.wire

/-- An email recipient (`{ name, email }`), rendered as `Name <email>`. -/
structure Recipient where
  name : Option String := none
  email : Option String := none

/-- The `issue` sub-record of a content. -/
structure IssueMeta where
  title : Option String := none
  identifier : Option String := none
  type : Option String := none
  project : Option String := none
  team : Option String := none
  status : Option String := none
  priority : Option String := none
  labels : Option (List String) := none

/-- The `email` sub-record of a content. -/
structure EmailMeta where
  subject : Option String := none
  sensitivity : Option String := none
  priority : Option String := none
  importance : Option String := none
  labels : Option (List String) := none
  «to» : Option (List Recipient) := none
  «from» : Option (List Recipient) := none
  cc : Option (List Recipient) := none
  bcc : Option (List Recipient) := none

/-- The `document` sub-record of a content. -/
structure DocumentMeta where
  title : Option String := none
  author : Option String := none

/-- The `audio` sub-record of a content. -/
structure AudioMeta where
  title : Option String := none
  author : Option String := none
  episode : Option String := none
  series : Option String := none

/-- The `image` sub-record of a content. -/
structure ImageMeta where
  description : Option String := none
  software : Option String := none
  make : Option String := none
  model : Option String := none

/-- A referenced entity carrying an identifier (parent/child content,
observation target). -/
structure EntityRef where
  id : String

/-- A collection membership reference (`{ id, name }`). -/
structure CollectionRef where
  id : String
  name : Option String := none

/-- An outbound hyperlink of a crawled page (`{ linkType, uri }`). -/
structure LinkRef where
  linkType : Option String := none
  uri : Option String := none

/-- A knowledge-graph observation on a content (`{ type, observable }`). -/
structure Observation where
  type : String
  observable : Option EntityRef := none

/-- A text chunk of a paginated content. -/
structure Chunk where
  text : Option String := none

/-- One page of a paginated content (`{ index, chunks }`). -/
structure ContentPage where
  index : Option Nat := none
  chunks : Option (List (Option Chunk)) := none

/-- One time-coded transcript segment. -/
structure Segment where
  startTime : Option String := none
  endTime : Option String := none
  text : Option String := none

/-- One indexed frame of a video/image sequence. -/
structure Frame where
  index : Option Nat := none
  text : Option String := none

/-- A fetched Content record, with the fields read by the formatters, the
resource handlers and the query-result projections
(`GetContentQuery["content"]`); `relevance` is the numeric retrieval score,
carried as its JSON rendering. -/
structure Content where
  id : String
  relevance : Option String := none
  mimeType : Option String := none
  type : Option ContentType := none
  fileType : Option String := none
  fileName : Option String := none
  name : Option String := none
  uri : Option String := none
  masterUri : Option String := none
  imageUri : Option String := none
  audioUri : Option String := none
  creationDate : Option String := none
  originalDate : Option String := none
  issue : Option IssueMeta := none
  email : Option EmailMeta := none
  document : Option DocumentMeta := none
  audio : Option AudioMeta := none
  image : Option ImageMeta := none
  collections : Option (List (Option CollectionRef)) := none
  parent : Option EntityRef := none
  children : Option (List (Option EntityRef)) := none
  links : Option (List LinkRef) := none
  observations : Option (List (Option Observation)) := none
  pages : Option (List ContentPage) := none
  segments : Option (List Segment) := none
  frames : Option (List Frame) := none
  markdown : Option String := none

/-- One conditionally emitted labeled line: `if (v) push(label + v)`. -/
def optLine (label : String) (v : Option String) : List String :=
  if jsTruthyStr v then [label ++ interpOpt v] else []

/-- Header block of `formatContent` (src/unnamed/part_002, lines 496-507):
file-type/file-name lines for `type === File`, otherwise the type line and -
except for Page and Email - the name line. -/
def headerLines (c : Content) : List String :=
  if c.type = some ContentType.File then
    ["**File Type:** [" ++ interpOpt c.fileType ++ "]",
     "**File Name:** " ++ interpOpt c.fileName]
  else
    ("**Type:** [" ++ interpType c.type ++ "]") ::
      (if c.type ≠ some ContentType.Page ∧ c.type ≠ some ContentType.Email then
        ["**Name:** " ++ interpOpt c.name]
      else [])

/-- Downloadable-URI lines (part_002, lines 516-521).  The raw source `uri`
field is deliberately not rendered in this revision (commented out in the
source with a REVIEW note). -/
def uriLines (c : Content) : List String :=
  optLine "**Downloadable Original:** " c.masterUri ++
  optLine "**Downloadable Image:** " c.imageUri ++
  optLine "**Downloadable Audio:** " c.audioUri

/-- Ingestion-date and author-date lines (part_002, lines 523-526). -/
def dateLines (c : Content) : List String :=
  optLine "**Ingestion Date:** " c.creationDate ++
  optLine "**Author Date:** " c.originalDate

/-- Issue sub-record lines (part_002, lines 529-549): present-only labeled
attributes in fixed order, then a comma-joined labels line. -/
def issueLines (c : Content) : List String :=
  match c.issue with
  | none => []
  | some issue =>
    (([("Title", issue.title), ("Identifier", issue.identifier),
       ("Type", issue.type), ("Project", issue.project), ("Team", issue.team),
       ("Status", issue.status), ("Priority", issue.priority)].filter
        (fun p => jsTruthyStr p.2)).map
      (fun p => "**" ++ p.1 ++ ":** " ++ interpOpt p.2)) ++
    (if jsTruthyLen issue.labels then
      ["**Labels:** " ++ String.intercalate ", " (issue.labels.getD [])]
    else [])

/-- Rendering of one email recipient (part_002, line 554). -/
def renderRecipient (r : Recipient) : String :=
  interpOpt r.name ++ " <" ++ interpOpt r.email ++ ">"

/-- JavaScript `xs?.map(f).join(", ")` on a nullable list. -/
def joinedOpt {α : Type} (f : α → String) : Option (List α) → Option String
  | none => none
  | some l => some (String.intercalate ", " (l.map f))

/-- Email sub-record lines (part_002, lines 552-572): present-only labeled
attributes, the joined values filtered by truthiness (so an empty recipient
list, whose join is the empty string, emits nothing). -/
def emailLines (c : Content) : List String :=
  match c.email with
  | none => []
  | some email =>
    ([("Subject", email.subject), ("Sensitivity", email.sensitivity),
      ("Priority", email.priority), ("Importance", email.importance),
      ("Labels", joinedOpt id email.labels),
      ("To", joinedOpt renderRecipient email.«to»),
      ("From", joinedOpt renderRecipient email.«from»),
      ("CC", joinedOpt renderRecipient email.cc),
      ("BCC", joinedOpt renderRecipient email.bcc)].filter
      (fun p => jsTruthyStr p.2)).map
      (fun p => "**" ++ p.1 ++ ":** " ++ interpOpt p.2)

/-- Document sub-record lines (part_002, lines 575-579). -/
def documentLines (c : Content) : List String :=
  match c.document with
  | none => []
  | some doc =>
    optLine "**Title:** " doc.title ++ optLine "**Author:** " doc.author

/-- Audio sub-record lines (part_002, lines 582-588). -/
def audioLines (c : Content) : List String :=
  match c.audio with
  | none => []
  | some audio =>
    optLine "**Title:** " audio.title ++ optLine "**Host:** " audio.author ++
    optLine "**Episode:** " audio.episode ++ optLine "**Series:** " audio.series

/-- Image sub-record lines (part_002, lines 591-598). -/
def imageLines (c : Content) : List String :=
  match c.image with
  | none => []
  | some image =>
    optLine "**Description:** " image.description ++
    optLine "**Software:** " image.software ++
    optLine "**Make:** " image.make ++ optLine "**Model:** " image.model

/-- Collection membership lines (part_002, lines 601-611): null entries
filtered, bounded to the first 100. -/
def collectionLines (c : Content) : List String :=
  match c.collections with
  | none => []
  | some cols =>
    ((cols.filterMap id).take 100).map
      (fun col =>
        "**Collection [" ++ interpOpt col.name ++ "]:** collections://" ++ col.id)

/-- Parent content line (part_002, lines 614-616). -/
def parentLines (c : Content) : List String :=
  match c.parent with
  | none => []
  | some p => ["**Parent Content:** contents://" ++ p.id]

/-- Child content lines (part_002, lines 619-626): null entries filtered,
bounded to the first 100. -/
def childLines (c : Content) : List String :=
  match c.children with
  | none => []
  | some cs =>
    ((cs.filterMap id).take 100).map
      (fun ch => "**Child Content:** contents://" ++ ch.id)

/-- Page link lines (part_002, lines 629-635): emitted only when the links
array is present and the type is Page, bounded to the first 1000. -/
def linkLines (c : Content) : List String :=
  match c.links with
  | none => []
  | some ls =>
    if c.type = some ContentType.Page then
      (ls.take 1000).map
        (fun l => "**" ++ interpOpt l.linkType ++ " Link:** " ++ interpOpt l.uri)
    else []

/-- Observation lines (part_002, lines 638-649): null entries and entries with
a null observable filtered, bounded to the first 100. -/
def observationLines (c : Content) : List String :=
  match c.observations with
  | none => []
  | some obs =>
    ((((obs.filterMap id).filter (fun o => o.observable.isSome)).take 100).map
      (fun o =>
        "**" ++ o.type ++ ":** " ++ jsToLower o.type ++ "s://" ++
          (o.observable.getD { id := "" }).id))

/-- The chunk texts of one page (part_002, lines 656-660): chunks whose text
is truthy, rendered verbatim. -/
def chunkTexts (chunks : Option (List (Option Chunk))) : List String :=
  match chunks with
  | none => []
  | some cs =>
    (cs.filter (fun ch => jsTruthyStr (ch.bind Chunk.text))).map
      (fun ch => (ch.bind Chunk.text).getD "")

/-- Paginated body lines (part_002, lines 652-664): for each page with any
chunks, a 1-based page header, the truthy chunk texts, and a separator. -/
def pageLines (c : Content) : List String :=
  if jsTruthyLen c.pages then
    ((c.pages.getD []).map (fun p =>
      if jsTruthyLen p.chunks then
        ("**Page #" ++ toString (p.index.getD 0 + 1) ++ ":**") ::
          chunkTexts p.chunks ++ ["\n---\n"]
      else [])).flatten
  else []

/-- Transcript body lines (part_002, lines 666-674). -/
def segmentLines (c : Content) : List String :=
  if jsTruthyLen c.segments then
    (c.segments.getD []).flatMap (fun s =>
      ["**Transcript Segment [" ++ interpOpt s.startTime ++ "-" ++
        interpOpt s.endTime ++ "]:**",
       s.text.getD "", "\n---\n"])
  else []

/-- Frame body lines (part_002, lines 676-682). -/
def frameLines (c : Content) : List String :=
  if jsTruthyLen c.frames then
    (c.frames.getD []).flatMap (fun f =>
      ["**Frame #" ++ toString (f.index.getD 0 + 1) ++ ":**",
       f.text.getD "", "\n---\n"])
  else []

/-- Flat markdown body lines (part_002, lines 684-692): emitted only when
none of pages, segments, frames has a truthy length and the markdown field is
truthy; the markdown is followed by a pushed newline entry. -/
def markdownLines (c : Content) : List String :=
  if !jsTruthyLen c.pages && !jsTruthyLen c.segments && !jsTruthyLen c.frames
      && jsTruthyStr c.markdown then
    [c.markdown.getD "", "\n"]
  else []

/-- All entries pushed by `formatContent` (src/unnamed/part_002, lines
484-695) for a present content record, in source push order. -/
def contentLines (c : Content) : List String :=
  ("**Content ID:** " ++ c.id) ::
    headerLines c ++ uriLines c ++ dateLines c ++ issueLines c ++
    emailLines c ++ documentLines c ++ audioLines c ++ imageLines c ++
    collectionLines c ++ parentLines c ++ childLines c ++ linkLines c ++
    observationLines c ++
    pageLines c ++ segmentLines c ++ frameLines c ++ markdownLines c

/-- The Content Formatter (src/unnamed/part_002, `formatContent`): empty
string when the response carries no content record, otherwise the pushed
entries joined with single newlines. -/
def formatContent : Option Content → String
  | none => ""
  | some c => String.intercalate "\n" (contentLines c)

/-! ### The image-branch revision of the formatter

`src/src/index.ts` (lines 2485-2625) carries an earlier revision of
`formatContent`, paired with the `contents://{id}` handler that performs the
secondary image fetch.  It differs from the part_002 revision by rendering the
raw source `uri`, labeling the image/audio URI lines differently, omitting the
collection/parent/child/observation sections, and bounding link lines to 100.
The header, sub-record and body blocks are textually identical, so their
embeddings are shared. -/

/-- Metadata lines of the index.ts revision (index.ts, lines 2508-2513). -/
def uriRevMetaLines (c : Content) : List String :=
  optLine "**URI:** " c.uri ++
  optLine "**Ingestion Date:** " c.creationDate ++
  optLine "**Author Date:** " c.originalDate ++
  optLine "**Image URI:** " c.imageUri ++
  optLine "**Audio URI:** " c.audioUri

/-- Page link lines of the index.ts revision (index.ts, lines 2583-2587):
bounded to the first 100. -/
def uriRevLinkLines (c : Content) : List String :=
  match c.links with
  | none => []
  | some ls =>
    if c.type = some ContentType.Page then
      (ls.take 100).map
        (fun l => "**" ++ interpOpt l.linkType ++ " Link:** " ++ interpOpt l.uri)
    else []

/-- All entries pushed by the index.ts revision of `formatContent`
(src/src/index.ts, lines 2485-2625), in source push order. -/
def contentLinesUriRev (c : Content) : List String :=
  ("**Content ID:** " ++ c.id) ::
    headerLines c ++ uriRevMetaLines c ++ issueLines c ++ emailLines c ++
    documentLines c ++ audioLines c ++ imageLines c ++ uriRevLinkLines c ++
    pageLines c ++ segmentLines c ++ frameLines c ++ markdownLines c

/-- The index.ts revision of the Content Formatter. -/
def formatContentUriRev : Option Content → String
  | none => ""
  | some c => String.intercalate "\n" (contentLinesUriRev c)

/-! ### Conversation Formatter (src/unnamed/part_002, lines 451-481) -/

/-- One citation of a conversation message. -/
structure Citation where
  index : Option Nat := none
  content : Option EntityRef := none
  text : Option String := none

/-- One conversation message (`{ role, message, citations }`). -/
structure ConvMessage where
  role : Option String := none
  message : Option String := none
  citations : Option (List (Option Citation)) := none

/-- A fetched Conversation record (`GetConversationQuery["conversation"]`). -/
structure Conversation where
  id : String
  messages : Option (List (Option ConvMessage)) := none

/-- The two entries pushed per citation (part_002, lines 469-474). -/
def citationLines (ct : Option Citation) : List String :=
  ["**Cited Source [" ++ interpOptNat (ct.bind Citation.index) ++
     "]**: contents://" ++ interpOpt ((ct.bind Citation.content).map EntityRef.id),
   "**Cited Text**:\n" ++ ((ct.bind Citation.text).getD "")]

/-- The entries pushed per message (part_002, lines 465-478): the role/body
entry, the citation entries when any, and a separator. -/
def messageLines (m : Option ConvMessage) : List String :=
  (interpOpt (m.bind ConvMessage.role) ++ ":\n" ++
      interpOpt (m.bind ConvMessage.message)) ::
    ((if jsTruthyLen (m.bind ConvMessage.citations) then
        ((m.bind ConvMessage.citations).getD []).flatMap citationLines
      else []) ++ ["\n---\n"])

/-- All entries pushed by `formatConversation` for a present conversation. -/
def conversationLines (cv : Conversation) : List String :=
  ("**Conversation ID:** " ++ cv.id) ::
    (if jsTruthyLen cv.messages then
      (cv.messages.getD []).flatMap messageLines
    else [])

/-- The Conversation Formatter (src/unnamed/part_002, `formatConversation`). -/
def formatConversation : Option Conversation → String
  | none => ""
  | some cv => String.intercalate "\n" (conversationLines cv)

/-! ### JSON bodies of the simple success payloads

The tool handlers pretty-print small objects with `JSON.stringify(x, null, 2)`.
Fields whose value is `undefined` are omitted by `JSON.stringify`; string
values are escaped.  Numeric values (e.g. a relevance score) are carried in
the model as their JSON rendering, since the adapter never computes with
them. -/

/-- JSON escaping of one character. -/
def jsonEscapeChar (ch : Char) : String :=
  if ch = '\\' then "\\\\"
  else if ch = '"' then "\\\""
  else if ch = '\n' then "\\n"
  else if ch = '\r' then "\\r"
  else if ch = '\t' then "\\t"
  else String.singleton ch

/-- JSON escaping of a string body. -/
def jsonEscape (s : String) : String :=
  String.join (s.toList.map jsonEscapeChar)

/-- A JSON string literal. -/
def jsonStr (s : String) : String :=
  "\"" ++ jsonEscape s ++ "\""

/-- Embedding of `JSON.stringify(obj, null, 2)` for a flat object: fields are
(name, rendered JSON value), `none` standing for `undefined` (omitted). -/
def jsonObject2 (fields : List (String × Option String)) : String :=
  match fields.filterMap (fun p => p.2.map (fun v => "  " ++ jsonStr p.1 ++ ": " ++ v)) with
  | [] => "\x7b\x7d"
  | fs => "\x7b\n" ++ String.intercalate ",\n" fs ++ "\n\x7d"

/-- Body of the ubiquitous `JSON.stringify({ id: response...?.id }, null, 2)`
success payload. -/
def stringifyIdObject (idOpt : Option String) : String :=
  jsonObject2 [("id", idOpt.map jsonStr)]

/-! ### Protocol envelopes -/

/-- One content block of a tool response. -/
structure ContentBlock where
  type : String
  text : String
  mimeType : Option String := none
  deriving DecidableEq

/-- A tool response envelope; handlers that succeed leave `isError` unset. -/
structure ToolResponse where
  content : List ContentBlock
  isError : Bool := false
  deriving DecidableEq

/-- The uniform tool error contract: one error-flagged text block carrying
`"Error: "` and the rejection message (e.g. src/src/tools.ts, lines 210-219). -/
def errorResponse (m : String) : ToolResponse :=
  { content := [{ type := "text", text := "Error: " ++ m }], isError := true }

/-- One entry of a resource dereference result (`text` or `blob` carrying). -/
structure ResourceContent where
  uri : String
  text : Option String := none
  blob : Option String := none
  mimeType : String
  deriving DecidableEq

/-- A resource dereference envelope. -/
structure ResourceResult where
  contents : List ResourceContent
  deriving DecidableEq

/-- One entry of a resource listing. -/
structure ResourceListing where
  name : Option String
  uri : String
  mimeType : Option String := none
  deriving DecidableEq

/-- A resource listing envelope. -/
structure ListResult where
  resources : List ResourceListing
  deriving DecidableEq

/-- Outcome of a tool handler that may terminate the whole process:
`process.exit(code)` or a returned response. -/
inductive HandlerOutcome (ρ : Type)
  | exits (code : Nat)
  | responds (r : ρ)
  deriving DecidableEq

/-! ### Resource handlers

Each handler awaits one remote-client call inside a `try`; the call is
embedded as an `Except String` argument standing for the awaited result
(projected, for listings, to the `...?.results` chain), and the `catch`
branch is the `.error` arm. -/

/-- A fetched Feed record as read by the feeds listing (`{ id, name }`). -/
structure Feed where
  id : String
  name : Option String := none

/-- The `feeds://` listing handler (src/unnamed/part_002, lines 82-100):
null results filtered, name+URI pairs on success, empty listing on failure. -/
def feedsListHandler (remote : Except String (List (Option Feed))) : ListResult :=
  match remote with
  | .ok results =>
    { resources := (results.filterMap id).map
        (fun feed => { name := feed.name, uri := "feeds://" ++ feed.id }) }
  | .error _ => { resources := [] }

/-- The `conversations://{id}` dereference handler (src/unnamed/part_002,
lines 52-76): one formatted markdown block on success, empty contents on
failure. -/
def conversationResourceHandler (uriStr : String)
    (remote : Except String (Option Conversation)) : ResourceResult :=
  match remote with
  | .ok cv =>
    { contents := [{ uri := uriStr, text := some (formatConversation cv),
                     mimeType := "text/markdown" }] }
  | .error _ => { contents := [] }

/-- The `contents://{id}` dereference handler of the part_002 revision
(src/unnamed/part_002, lines 256-281): one formatted markdown block on
success, empty contents on failure. -/
def contentResourceHandler (uriStr : String)
    (remote : Except String (Option Content)) : ResourceResult :=
  match remote with
  | .ok c =>
    { contents := [{ uri := uriStr, text := some (formatContent c),
                     mimeType := "text/markdown" }] }
  | .error _ => { contents := [] }

/-- Result of the secondary image fetch (fetch + ok-check + arrayBuffer +
base64 encoding + content-type header), `.error` covering both a rejected
fetch and a non-ok status (which the handler turns into a thrown error). -/
structure FetchOk where
  base64 : String
  contentTypeHeader : Option String := none

/-- The `contents://{id}` dereference handler of the index.ts revision
(src/src/index.ts, lines 2230-2296): when the fetched content has file-type
Image and a truthy `uri`, the handler fetches that URI and returns the
formatted text block plus a base64 blob block with the detected media type;
otherwise it returns the single formatted text block; any thrown error yields
empty contents. -/
def contentResourceHandlerImage (uriStr : String)
    (remote : Except String (Option Content))
    (fetchImage : String → Except String FetchOk) : ResourceResult :=
  match remote with
  | .error _ => { contents := [] }
  | .ok c =>
    if c.bind Content.fileType = some "Image" then
      let imageUri := c.bind Content.uri
      if jsTruthyStr imageUri then
        match fetchImage (imageUri.getD "") with
        | .error _ => { contents := [] }
        | .ok f =>
          { contents :=
              [{ uri := uriStr, text := some (formatContentUriRev c),
                 mimeType := "text/markdown" },
               { uri := uriStr, blob := some f.base64,
                 mimeType :=
                   if jsTruthyStr f.contentTypeHeader then
                     f.contentTypeHeader.getD ""
                   else "application/octet-stream" }] }
      else
        { contents := [{ uri := uriStr, text := some (formatContentUriRev c),
                         mimeType := "text/markdown" }] }
    else
      { contents := [{ uri := uriStr, text := some (formatContentUriRev c),
                       mimeType := "text/markdown" }] }

/-! ### Tool handlers

The per-call `ContentFilter`/argument shaping that is merely forwarded is not
re-stated field by field where no claim concerns it; the remote invocation is
embedded as a function from the constructed request (or directly as its
result) to an `Except String` value. -/

/-- The `content` reference of a retrieval source (`source.content?.id`). -/
structure SourceContentRef where
  id : Option String := none

/-- A ranked retrieval source as read by `retrieveSources`; the numeric
relevance is carried as its JSON rendering. -/
structure Source where
  content : Option SourceContentRef := none
  relevance : Option String := none
  text : Option String := none

/-- JSON body of one retrieved source (src/src/tools.ts, lines 201-207). -/
def sourceJson (s : Source) : String :=
  jsonObject2
    [("id", (s.content.bind SourceContentRef.id).map jsonStr),
     ("relevance", s.relevance),
     ("resourceUri",
       some (jsonStr ("contents://" ++ interpOpt (s.content.bind SourceContentRef.id)))),
     ("text", s.text.map jsonStr),
     ("mimeType", some (jsonStr "text/markdown"))]

/-- The `retrieveSources` tool handler (src/src/tools.ts, lines 157-221):
on success one text block per non-null source with its JSON projection; on
rejection the uniform error block. -/
def retrieveSourcesHandler
    (remote : Except String (List (Option Source))) : ToolResponse :=
  match remote with
  | .ok sources =>
    { content := (sources.filterMap id).map (fun s =>
        { type := "text", mimeType := some "application/json",
          text := sourceJson s }) }
  | .error m => errorResponse m

/-- The Slack portion of the `createFeed` request built by
`ingestSlackMessages` (src/src/index.ts, lines 1276-1286). -/
structure SlackFeedParams where
  type : String := "Past"
  channel : String
  token : String
  includeAttachments : Bool := true
  readLimit : Int
  deriving DecidableEq

/-- The `createFeed` request of `ingestSlackMessages`. -/
structure SlackCreateFeedRequest where
  name : String
  type : String := "Slack"
  slack : SlackFeedParams
  deriving DecidableEq

/-- Request construction of `ingestSlackMessages`: the read limit defaults to
100 whenever the supplied value is falsy. -/
def slackFeedRequest (channelName botToken : String)
    (readLimit : Option Int) : SlackCreateFeedRequest :=
  { name := "Slack [" ++ channelName ++ "]",
    slack := { channel := channelName, token := botToken,
               readLimit := jsOrInt readLimit 100 } }

/-- The `ingestSlackMessages` tool handler (src/src/index.ts, lines
1257-1306): a falsy `SLACK_BOT_TOKEN` terminates the process with exit code 1
before any request is made; otherwise one `createFeed` call, its identifier
wrapped on success and the uniform error block on rejection. -/
def ingestSlackMessages (botToken : Option String) (channelName : String)
    (readLimit : Option Int)
    (remote : SlackCreateFeedRequest → Except String (Option String)) :
    HandlerOutcome ToolResponse :=
  if jsTruthyStr botToken = false then .exits 1
  else
    match remote (slackFeedRequest channelName (botToken.getD "") readLimit) with
    | .ok idOpt =>
      .responds { content := [{ type := "text", text := stringifyIdObject idOpt }] }
    | .error m => .responds (errorResponse m)

/-- The RSS portion of the `createFeed` request built by `ingestRSS`
(src/src/tools.ts, lines 2218-2225). -/
structure RssFeedParams where
  uri : String
  readLimit : Int
  deriving DecidableEq

/-- The `createFeed` request of `ingestRSS`. -/
structure RssCreateFeedRequest where
  name : String
  type : String := "Rss"
  rss : RssFeedParams
  deriving DecidableEq

/-- Request construction of `ingestRSS`: the read limit defaults to 25
whenever the supplied value is falsy. -/
def rssFeedRequest (url : String) (readLimit : Option Int) : RssCreateFeedRequest :=
  { name := "RSS [" ++ url ++ "]",
    rss := { uri := url, readLimit := jsOrInt readLimit 25 } }

/-- The `ingestRSS` tool handler (src/src/tools.ts, lines 2204-2245). -/
def ingestRSS (url : String) (readLimit : Option Int)
    (remote : RssCreateFeedRequest → Except String (Option String)) : ToolResponse :=
  match remote (rssFeedRequest url readLimit) with
  | .ok idOpt => { content := [{ type := "text", text := stringifyIdObject idOpt }] }
  | .error m => errorResponse m

/-- The SharePoint connector parameters of the `createFeed` request built by
`ingestSharePointFiles` (src/src/tools.ts, lines 1129-1146). -/
structure SharePointParams where
  authenticationType : String := "User"
  accountName : String
  clientId : String
  clientSecret : String
  refreshToken : String
  libraryId : String
  folderId : Option String := none
  deriving DecidableEq

/-- The site portion of the `createFeed` request of `ingestSharePointFiles`. -/
structure SiteFeedParams where
  type : String := "SharePoint"
  sharePoint : SharePointParams
  isRecursive : Bool := true
  readLimit : Int
  deriving DecidableEq

/-- The `createFeed` request of `ingestSharePointFiles`. -/
structure SiteCreateFeedRequest where
  name : String := "SharePoint"
  type : String := "Site"
  site : SiteFeedParams
  deriving DecidableEq

/-- Request construction of `ingestSharePointFiles`: the read limit defaults
to 100 whenever the supplied value is falsy. -/
def sharePointFeedRequest (accountName clientId clientSecret refreshToken
    libraryId : String) (folderId : Option String)
    (readLimit : Option Int) : SiteCreateFeedRequest :=
  { site := { sharePoint := { accountName := accountName, clientId := clientId,
                              clientSecret := clientSecret,
                              refreshToken := refreshToken,
                              libraryId := libraryId, folderId := folderId },
              readLimit := jsOrInt readLimit 100 } }

/-- The four environment values read by `ingestSharePointFiles`. -/
structure SharePointEnv where
  accountName : Option String := none
  clientId : Option String := none
  clientSecret : Option String := none
  refreshToken : Option String := none

/-- The `ingestSharePointFiles` tool handler (src/src/tools.ts, lines
1089-1166): each falsy credential terminates the process with exit code 1, in
source order, before any request is made. -/
def ingestSharePointFiles (env : SharePointEnv) (libraryId : String)
    (folderId : Option String) (readLimit : Option Int)
    (remote : SiteCreateFeedRequest → Except String (Option String)) :
    HandlerOutcome ToolResponse :=
  if jsTruthyStr env.accountName = false then .exits 1
  else if jsTruthyStr env.clientId = false then .exits 1
  else if jsTruthyStr env.clientSecret = false then .exits 1
  else if jsTruthyStr env.refreshToken = false then .exits 1
  else
    match remote (sharePointFeedRequest (env.accountName.getD "")
        (env.clientId.getD "") (env.clientSecret.getD "")
        (env.refreshToken.getD "") libraryId folderId readLimit) with
    | .ok idOpt =>
      .responds { content := [{ type := "text", text := stringifyIdObject idOpt }] }
    | .error m => .responds (errorResponse m)

/-- The `configureProject` tool handler (src/src/tools.ts, lines 31-155).
Unlike every other tool handler, its service-type check (a `throw` for
unsupported members, lines 50-58) and its awaited `upsertSpecification`
(lines 61, 80) and `upsertWorkflow` (line 98) calls run before the `try`
block, which starts only at line 131 around `updateProject`; a rejection of
those earlier calls therefore escapes the handler (the `.error` result of
this embedding) instead of becoming the uniform error block.  The
specification/workflow request bodies, which only consume the returned
identifiers, are abstracted as the results of the awaited calls. -/
def configureProject (enablePreparation enableExtraction : Bool)
    (serviceType : String)
    (upsertPreparationSpec upsertExtractionSpec upsertWorkflowCall :
      Except String (Option String))
    (updateProjectCall : Option String → Except String (Option String)) :
    Except String ToolResponse :=
  if serviceType = "Anthropic" ∨ serviceType = "Google" ∨ serviceType = "OpenAi" then
    match (if enablePreparation then upsertPreparationSpec else Except.ok none) with
    | .error m => .error m
    | .ok _prepId =>
      match (if enableExtraction then upsertExtractionSpec else Except.ok none) with
      | .error m => .error m
      | .ok _extId =>
        match upsertWorkflowCall with
        | .error m => .error m
        | .ok workflowId =>
          match updateProjectCall workflowId with
          | .ok idOpt =>
            .ok { content := [{ type := "text", text := stringifyIdObject idOpt }] }
          | .error m => .ok (errorResponse m)
  else
    .error ("Unsupported model service type [" ++ serviceType ++ "].")

/-- The image-similarity portion of the content filter built by
`retrieveImages` (src/src/tools.ts, lines 271-282); the pass-through filter
fields (search type, feeds, collections, location, recency, limit) are not
re-stated since no claim concerns them. -/
structure ImageQueryFilter where
  imageData : Option String := none
  imageMimeType : Option String := none
  types : List String := ["File"]
  fileTypes : List String := ["Image"]
  deriving DecidableEq

/-- The caller-URL fetch of `retrieveImages` (src/src/tools.ts, lines
255-268): when the url is truthy, the handler fetches it, throws on a non-ok
status, base64-encodes the bytes and reads the content-type header with the
application/octet-stream fallback.  This runs before the `try` block (line
270), so a failure escapes the handler. -/
def retrieveImagesFetched (url : String)
    (fetchFn : String → Except String FetchOk) :
    Except String (Option String × Option String) :=
  if url.isEmpty = false then
    match fetchFn url with
    | .error m => .error m
    | .ok f =>
      .ok (some f.base64,
        some (if jsTruthyStr f.contentTypeHeader then f.contentTypeHeader.getD ""
              else "application/octet-stream"))
  else .ok (none, none)

/-- JSON body of one matched image content (src/src/tools.ts, lines
293-300). -/
def imageResultJson (c : Content) : String :=
  jsonObject2
    [("id", some (jsonStr c.id)),
     ("relevance", c.relevance),
     ("fileName", c.fileName.map jsonStr),
     ("resourceUri", some (jsonStr ("contents://" ++ c.id))),
     ("uri", c.imageUri.map jsonStr),
     ("mimeType", c.mimeType.map jsonStr)]

/-- The `retrieveImages` tool handler (src/src/tools.ts, lines 236-310): it
fetches the caller-supplied image URL - the second secondary-fetch site of
the adapter - and feeds the base64 bytes and detected media type into the
queryContents filter; the remote rejection becomes the uniform error block,
but a fetch failure escapes the handler. -/
def retrieveImagesHandler (url : String)
    (fetchFn : String → Except String FetchOk)
    (remote : ImageQueryFilter → Except String (List (Option Content))) :
    Except String ToolResponse :=
  match retrieveImagesFetched url fetchFn with
  | .error m => .error m
  | .ok (data, mimeType) =>
    match remote { imageData := data, imageMimeType := mimeType } with
    | .ok results =>
      .ok { content := (results.filterMap id).map (fun c =>
          { type := "text", mimeType := some "application/json",
            text := imageResultJson c }) }
    | .error m => .ok (errorResponse m)

/-! ### Results-to-Markup Formatter (spec section 4.2)

The markup-producing revision of the source-results formatter is not among
the source files provided under src/ (the retrieveSources handlers present
there emit JSON projections; only the tool description in src/src/index.ts,
line 218, advertises the XML metadata rendering).  The definitions below are
therefore modelled from the spec. -/

/-- Modelled from the spec: one heterogeneous result record, "a flat mapping
of field name to scalar/null" (spec section 4.2); `none` is a null value. -/
structure ResultRecord where
  fields : List (String × Option String)

/-- Modelled from the spec: camel-case to kebab-case conversion of attribute
names (spec section 4.2). -/
def camelToKebab (s : String) : String :=
  String.join (s.toList.map (fun ch =>
    if ch.isUpper then "-" ++ String.singleton ch.toLower
    else String.singleton ch))

/-- Modelled from the spec: the fixed exclusion set - `metadata`, `text`,
`content`, and the type-discriminator field (spec section 4.2). -/
def excludedField (disc k : String) : Bool :=
  k == "metadata" || k == "text" || k == "content" || k == disc

/-- Modelled from the spec: the attribute renderings of one result - every
non-excluded field, kebab-cased, only when non-null, with the value spliced
unescaped (spec section 4.2 notes the absence of escaping as known
fragility). -/
def attrStrings (disc : String) (r : ResultRecord) : List String :=
  r.fields.filterMap (fun kv =>
    if excludedField disc kv.1 then none
    else kv.2.map (fun v => camelToKebab kv.1 ++ "=\"" ++ v ++ "\""))

/-- First non-null binding of a field name in a result record. -/
def fieldValue (k : String) (r : ResultRecord) : Option String :=
  (r.fields.lookup k).bind id

/-- Modelled from the spec: the child element body - the `metadata` value (if
any) followed by the `text` value (if any), newline-joined. -/
def childBody (r : ResultRecord) : String :=
  String.intercalate "\n" ((fieldValue "metadata" r).toList ++ (fieldValue "text" r).toList)

/-- Modelled from the spec: one child element per result. -/
def childMarkup (childTag disc : String) (r : ResultRecord) : String :=
  "<" ++ childTag ++ String.join ((attrStrings disc r).map (fun a => " " ++ a)) ++
    ">" ++ childBody r ++ "</" ++ childTag ++ ">"

/-- Concatenation of a list of strings, the spec-side decomposition target of
the child-element rendering loop. -/
def concatStrings : List String → String
  | [] => ""
  | s :: ss => s ++ concatStrings ss

/-- Modelled from the spec: the child elements rendered left to right over the
input list. -/
def renderChildren (childTag disc : String) : List ResultRecord → String
  | [] => ""
  | r :: rs => childMarkup childTag disc r ++ renderChildren childTag disc rs

/-- Modelled from the spec: the Results-to-Markup Formatter - one wrapping
element containing one child element per result (spec section 4.2); the tag
names are parameters since the spec fixes only the element structure. -/
def formatResultsToMarkup (wrapTag childTag disc : String)
    (results : List ResultRecord) : String :=
  "<" ++ wrapTag ++ ">" ++ renderChildren childTag disc results ++ "</" ++ wrapTag ++ ">"

/-! ### Concrete records used by the claim theorems -/

/-- The round-trip scenario record of the spec (section 8): a File/Document
content with document title/author and a flat markdown body. -/
def C1record : Content :=
  { id := "abc123", type := some ContentType.File, fileType := some "Document",
    fileName := some "report.pdf",
    document := some { title := some "Q1 Report", author := some "J. Doe" },
    markdown := some "# Report body" }

/-- A content with a non-empty paginated body, a non-empty transcript body
and a non-empty markdown field at once. -/
def C2bothRec : Content :=
  { id := "both",
    pages := some [{ index := some 0,
                     chunks := some [some { text := some "PAGE TEXT" }] }],
    segments := some [{ startTime := some "0s", endTime := some "5s",
                        text := some "SEG TEXT" }],
    markdown := some "MD" }

/-- A Page content with 150 collection memberships and 1500 links. -/
def C6bigPage : Content :=
  { id := "big", type := some ContentType.Page,
    collections := some (List.replicate 150
      (some { id := "col1", name := some "Col" })),
    links := some (List.replicate 1500
      { linkType := some "Hyperlink", uri := some "https://example.org" }) }

/-- A File content carrying links, which must not emit link lines. -/
def C6fileLinks : Content :=
  { id := "file1", type := some ContentType.File, fileType := some "Document",
    links := some [{ linkType := some "Hyperlink", uri := some "https://example.org" }] }

/-- A Page content with a non-empty name, for the suppression invariant. -/
def C7pageNamed : Content :=
  { id := "p1", type := some ContentType.Page, name := some "Visible Name" }

/-- An Image content with a truthy raw URI. -/
def C9imageRec : Content :=
  { id := "img1", type := some ContentType.File, fileType := some "Image",
    fileName := some "photo.png", uri := some "https://files.example/img1.png" }

/-- A stub secondary fetch returning fixed base64 data and media type. -/
def C9fetchStub : String → Except String FetchOk :=
  fun _ => Except.ok { base64 := "QkFTRTY0", contentTypeHeader := some "image/png" }

/-- An Image content whose downloadable original URI is non-empty but whose
raw source `uri` field is absent. -/
def C9masterOnlyRec : Content :=
  { id := "img2", type := some ContentType.File, fileType := some "Image",
    fileName := some "photo2.png",
    masterUri := some "https://files.example/img2.png" }

/-! ### Helper lemmas -/

/-- A mapped take of length `n` has at most `n` elements. -/
theorem length_map_take_le {α β : Type} (f : α → β) (n : Nat) (l : List α) :
    ((l.take n).map f).length ≤ n := by
  simp [List.length_take]

/-- The child-rendering loop is the concatenation of the per-child markup. -/
theorem renderChildren_eq_concat (childTag disc : String)
    (rs : List ResultRecord) :
    renderChildren childTag disc rs =
      concatStrings (rs.map (childMarkup childTag disc)) := by
  induction rs with
  | nil => rfl
  | cons r rs ih => simp [renderChildren, concatStrings, ih]

/-- The attribute list of a result is the kebab-cased rendering of exactly
its non-excluded, non-null fields, in field order. -/
theorem attrList_eq (disc : String) (l : List (String × Option String)) :
    (l.filterMap (fun kv =>
      if excludedField disc kv.1 then none
      else kv.2.map (fun v => camelToKebab kv.1 ++ "=\"" ++ v ++ "\""))) =
    (l.filter (fun kv => !excludedField disc kv.1 && kv.2.isSome)).map
      (fun kv => camelToKebab kv.1 ++ "=\"" ++ kv.2.getD "" ++ "\"") := by
  induction l with
  | nil => rfl
  | cons kv l ih =>
    by_cases h : excludedField disc kv.1 = true
    · simp [List.filterMap_cons, List.filter_cons, h, ih]
    · cases hv : kv.2 with
      | none => simp [List.filterMap_cons, List.filter_cons, h, hv, ih]
      | some v => simp [List.filterMap_cons, List.filter_cons, h, hv, ih]

/-! ### Claim theorems -/

/-- Claim C1: on the round-trip record (id abc123, File/Document,
report.pdf, document title/author, flat markdown), the `contents://{id}`
dereference renders exactly the five header/metadata lines in order,
followed by the verbatim markdown and a trailing blank line, joined with
single newlines. -/
theorem C1_round_trip_formatting :
    contentResourceHandler "contents://abc123" (Except.ok (some C1record)) =
      { contents :=
          [{ uri := "contents://abc123",
             text := some ("**Content ID:** abc123\n**File Type:** [Document]\n" ++
               "**File Name:** report.pdf\n**Title:** Q1 Report\n" ++
               "**Author:** J. Doe\n# Report body\n\n"),
             mimeType := "text/markdown" }] } ∧
    formatContent (some C1record) =
      "**Content ID:** abc123\n**File Type:** [Document]\n" ++
        "**File Name:** report.pdf\n**Title:** Q1 Report\n" ++
        "**Author:** J. Doe\n# Report body\n\n" := by
  constructor <;> decide

/-- Claim C4 counterexample: in `configureProject`, the `upsertWorkflow`
call is awaited before the `try` block, so its rejection with message
"rate limited" escapes the handler as a thrown error - the handler returns
no response at all, in particular not the mandated error-flagged text
block - even though every other call in the scenario succeeds. -/
theorem C4_counterexample :
    configureProject true false "Anthropic" (Except.ok (some "spec1"))
        (Except.ok none) (Except.error "rate limited")
        (fun _ => Except.ok (some "proj1")) =
      Except.error "rate limited" ∧
    configureProject true false "Anthropic" (Except.ok (some "spec1"))
        (Except.ok none) (Except.error "rate limited")
        (fun _ => Except.ok (some "proj1")) ≠
      Except.ok (errorResponse "rate limited") :=
  ⟨rfl, fun h => nomatch h⟩

/-- Claim C4 (amended): error handling is asymmetric - a rejection of a
remote call awaited inside a tool handler's try/catch yields exactly one
error-flagged text block whose text is "Error: " followed by the message
(concretely for "rate limited"), and this covers every remote call of every
tool except the `upsertSpecification`/`upsertWorkflow` calls of
`configureProject`, which precede its try block and whose rejections escape
the handler; every resource handler degrades a failure to an empty
resources or contents list. -/
theorem C4_error_asymmetry :
    (∀ m, retrieveSourcesHandler (Except.error m) = errorResponse m) ∧
    (∀ m url readLimit, ingestRSS url readLimit (fun _ => Except.error m) =
      errorResponse m) ∧
    (∀ m channelName readLimit,
      ingestSlackMessages (some "xoxb-token") channelName readLimit
          (fun _ => Except.error m) =
        HandlerOutcome.responds (errorResponse m)) ∧
    (∀ m, errorResponse m =
      { content := [{ type := "text", text := "Error: " ++ m, mimeType := none }],
        isError := true }) ∧
    retrieveSourcesHandler (Except.error "rate limited") =
      { content := [{ type := "text", text := "Error: rate limited",
                      mimeType := none }],
        isError := true } ∧
    (∀ m uriStr, conversationResourceHandler uriStr (Except.error m) =
      { contents := [] }) ∧
    (∀ m, feedsListHandler (Except.error m) = { resources := [] }) ∧
    (∀ m uriStr, contentResourceHandler uriStr (Except.error m) =
      { contents := [] }) ∧
    (∀ m uriStr fetchImage,
      contentResourceHandlerImage uriStr (Except.error m) fetchImage =
        { contents := [] }) ∧
    (∀ m enablePreparation enableExtraction prepId extId workflowId,
      configureProject enablePreparation enableExtraction "Anthropic"
          (Except.ok prepId) (Except.ok extId) (Except.ok workflowId)
          (fun _ => Except.error m) =
        Except.ok (errorResponse m)) ∧
    (∀ m updateProjectCall,
      configureProject false false "Anthropic" (Except.ok none) (Except.ok none)
          (Except.error m) updateProjectCall = Except.error m) := by
  refine ⟨fun _ => rfl, fun _ _ _ => rfl, fun _ _ _ => rfl, fun _ => rfl, rfl,
    fun _ _ => rfl, fun _ => rfl, fun _ _ => rfl, fun _ _ _ => rfl,
    ?_, fun _ _ => rfl⟩
  intro m enablePreparation enableExtraction prepId extId workflowId
  cases enablePreparation <;> cases enableExtraction <;> rfl

/-- Claim C5: a connector tool whose required credential configuration value
is absent at call time terminates the process with exit code 1 instead of
returning any response - concretely, `ingestSlackMessages` without
SLACK_BOT_TOKEN, and `ingestSharePointFiles` without
SHAREPOINT_ACCOUNT_NAME, for every argument list and every remote. -/
theorem C5_missing_credentials_fail_fast :
    (∀ channelName readLimit remote,
      ingestSlackMessages none channelName readLimit remote =
        HandlerOutcome.exits 1) ∧
    (∀ channelName readLimit remote,
      ingestSlackMessages (some "") channelName readLimit remote =
        HandlerOutcome.exits 1) ∧
    (∀ cid cs rt libraryId folderId readLimit remote,
      ingestSharePointFiles
          { accountName := none, clientId := cid, clientSecret := cs,
            refreshToken := rt }
          libraryId folderId readLimit remote =
        HandlerOutcome.exits 1) ∧
    (∀ cs rt libraryId folderId readLimit remote,
      ingestSharePointFiles
          { accountName := some "acct", clientId := none, clientSecret := cs,
            refreshToken := rt }
          libraryId folderId readLimit remote =
        HandlerOutcome.exits 1) :=
  ⟨fun _ _ _ => rfl, fun _ _ _ => rfl, fun _ _ _ _ _ _ _ => rfl,
   fun _ _ _ _ _ _ => rfl⟩

/-- Claim C8: the Content Formatter is a pure total function of its input
record - absence of a record yields the empty string, and every present
record yields the newline join of its emitted lines, the first of which is
always the identifier line. -/
theorem C8_pure_total_formatter :
    formatContent none = "" ∧
    (∀ c : Content, formatContent (some c) =
      String.intercalate "\n" (contentLines c)) ∧
    (∀ c : Content, (contentLines c).head? =
      some ("**Content ID:** " ++ c.id)) :=
  ⟨rfl, fun _ => rfl, fun _ => rfl⟩

/-- Claim C10: a caller-supplied readLimit of 0 is replaced by the
connector default in the constructed create-feed request - 25 for the RSS
connector, 100 for SharePoint and Slack - exactly as an absent readLimit
is, while a non-zero value is forwarded. -/
theorem C10_zero_read_limit_defaulted :
    (∀ url, (rssFeedRequest url (some 0)).rss.readLimit = 25 ∧
      (rssFeedRequest url none).rss.readLimit = 25 ∧
      (rssFeedRequest url (some 7)).rss.readLimit = 7) ∧
    (∀ acc cid cs rt libraryId folderId,
      (sharePointFeedRequest acc cid cs rt libraryId folderId
        (some 0)).site.readLimit = 100 ∧
      (sharePointFeedRequest acc cid cs rt libraryId folderId
        none).site.readLimit = 100) ∧
    (∀ channelName botToken,
      (slackFeedRequest channelName botToken (some 0)).slack.readLimit = 100 ∧
      (slackFeedRequest channelName botToken none).slack.readLimit = 100) :=
  ⟨fun _ => ⟨rfl, rfl, rfl⟩, fun _ _ _ _ _ _ => ⟨rfl, rfl⟩, fun _ _ => ⟨rfl, rfl⟩⟩

/-- Claim C2 counterexample: on a record with both a non-empty paginated body
and a non-empty transcript body, the rendered output contains both the page
rendering and the transcript rendering, so the body is not exactly one
representation chosen first-match-wins. -/
theorem C2_counterexample :
    jsTruthyLen C2bothRec.pages = true ∧
    "**Page #1:**" ∈ contentLines C2bothRec ∧
    "**Transcript Segment [0s-5s]:**" ∈ contentLines C2bothRec := by
  refine ⟨rfl, ?_, ?_⟩ <;> decide

/-- Claim C2 (amended): the flat markdown field is rendered (followed by a
blank-line entry) only when none of pages, segments and frames is non-empty;
each structured body section is rendered independently whenever non-empty,
in the fixed order pages, segments, frames - so markdown is never duplicated
alongside a structured rendering, but several structured renderings may
coexist. -/
theorem C2_markdown_precedence (c : Content) :
    (jsTruthyLen c.pages = true ∨ jsTruthyLen c.segments = true ∨
        jsTruthyLen c.frames = true →
      markdownLines c = []) ∧
    (markdownLines c ≠ [] →
      pageLines c = [] ∧ segmentLines c = [] ∧ frameLines c = [] ∧
      markdownLines c = [c.markdown.getD "", "\n"]) := by
  constructor
  · intro h
    rcases h with h | h | h <;> simp [markdownLines, h]
  · intro h
    by_cases hg : (!jsTruthyLen c.pages && !jsTruthyLen c.segments &&
        !jsTruthyLen c.frames && jsTruthyStr c.markdown) = true
    · simp only [Bool.and_eq_true, Bool.not_eq_true'] at hg
      obtain ⟨⟨⟨hp, hs⟩, hf⟩, _⟩ := hg
      exact ⟨by simp [pageLines, hp], by simp [segmentLines, hs],
        by simp [frameLines, hf],
        by simp [markdownLines, hp, hs, hf, *]⟩
    · exact absurd (by simp [markdownLines, hg]) h

/-- Claim C2 witness: on the pages-and-markdown record, the markdown section
is empty. -/
theorem C2_markdown_precedence_witness : markdownLines C2bothRec = [] :=
  (C2_markdown_precedence C2bothRec).1 (Or.inl rfl)

/-- Claim C3: the Results-to-Markup Formatter produces one wrapping element
with one child element per result in input order; each child carries, as
attributes, exactly the non-null fields outside the exclusion set
(metadata, text, content, the discriminator), kebab-cased and unescaped,
and its body is the metadata value followed by the text value,
newline-joined - shown in general by decomposition and on a concrete
record. -/
theorem C3_results_markup :
    (∀ wrapTag childTag disc results,
      formatResultsToMarkup wrapTag childTag disc results =
        "<" ++ wrapTag ++ ">" ++
          concatStrings (results.map (childMarkup childTag disc)) ++
          "</" ++ wrapTag ++ ">") ∧
    (∀ disc r, attrStrings disc r =
      (r.fields.filter (fun kv => !excludedField disc kv.1 && kv.2.isSome)).map
        (fun kv => camelToKebab kv.1 ++ "=\"" ++ kv.2.getD "" ++ "\"")) ∧
    childMarkup "result" "__typename"
        { fields := [("pageNumber", some "3"), ("relevance", none),
                     ("content", some "c1"), ("__typename", some "TextSource"),
                     ("metadata", some "META"), ("text", some "TEXT")] } =
      "<result page-number=\"3\">META\nTEXT</result>" := by
  refine ⟨?_, ?_, by decide⟩
  · intro wrapTag childTag disc results
    rw [formatResultsToMarkup, renderChildren_eq_concat]
  · intro disc r
    exact attrList_eq disc r.fields

/-- Claim C6: the formatter truncates its list sections at fixed bounds -
at most 100 collection-membership lines, 100 child-content lines and 100
observation lines for any record, at most 1000 link lines, and link lines
only for Page-typed records. -/
theorem C6_truncation_bounds (c : Content) :
    (collectionLines c).length ≤ 100 ∧
    (childLines c).length ≤ 100 ∧
    (observationLines c).length ≤ 100 ∧
    (linkLines c).length ≤ 1000 ∧
    (c.type ≠ some ContentType.Page → linkLines c = []) := by
  refine ⟨?_, ?_, ?_, ?_, ?_⟩
  · cases h : c.collections with
    | none => simp [collectionLines, h]
    | some cols => simp [collectionLines, h, List.length_take]
  · cases h : c.children with
    | none => simp [childLines, h]
    | some cs => simp [childLines, h, List.length_take]
  · cases h : c.observations with
    | none => simp [observationLines, h]
    | some obs => simp [observationLines, h, List.length_take]
  · cases h : c.links with
    | none => simp [linkLines, h]
    | some ls =>
      by_cases ht : c.type = some ContentType.Page
      · simp [linkLines, h, ht, List.length_take]
      · simp [linkLines, h, ht]
  · intro ht
    cases h : c.links with
    | none => simp [linkLines, h]
    | some ls => simp [linkLines, h, ht]

/-- Claim C6 witness: 150 collection memberships yield at most 100
membership lines, 1500 links on a Page yield at most 1000 link lines, and a
File-typed record with links yields no link line. -/
theorem C6_truncation_bounds_witness :
    (collectionLines C6bigPage).length ≤ 100 ∧
    (linkLines C6bigPage).length ≤ 1000 ∧
    linkLines C6fileLinks = [] :=
  ⟨(C6_truncation_bounds C6bigPage).1,
   (C6_truncation_bounds C6bigPage).2.2.2.1,
   (C6_truncation_bounds C6fileLinks).2.2.2.2 (by decide)⟩

/-- A Content record whose optional fields are all absent. -/
def bareContent (idStr : String) (t : Option ContentType) : Content :=
  { id := idStr, type := t }

/-- Claim C7: a record lacking every optional field renders exactly the
identifier line plus the header block - file-type and file-name lines when
the type is File, otherwise the type line and, except for Page and Email,
the name line - and for every record typed Page or Email the header is the
type line alone, so a Name line is never emitted regardless of the name
field. -/
theorem C7_minimal_output_and_name_suppression :
    (∀ idStr t, contentLines (bareContent idStr t) =
      ("**Content ID:** " ++ idStr) :: headerLines (bareContent idStr t)) ∧
    (∀ idStr t, headerLines (bareContent idStr t) =
      if t = some ContentType.File then
        ["**File Type:** [null]", "**File Name:** null"]
      else
        ("**Type:** [" ++ interpType t ++ "]") ::
          (if t ≠ some ContentType.Page ∧ t ≠ some ContentType.Email then
            ["**Name:** null"]
          else [])) ∧
    (∀ c : Content,
      c.type = some ContentType.Page ∨ c.type = some ContentType.Email →
      headerLines c = ["**Type:** [" ++ interpType c.type ++ "]"]) := by
  refine ⟨?_, ?_, ?_⟩
  · intro idStr t
    simp [contentLines, bareContent, uriLines, dateLines, issueLines,
      emailLines, documentLines, audioLines, imageLines, collectionLines,
      parentLines, childLines, linkLines, observationLines, pageLines,
      segmentLines, frameLines, markdownLines, optLine, jsTruthyStr,
      jsTruthyLen]
  · intro idStr t
    simp [headerLines, bareContent, interpOpt]
  · intro c h
    rcases h with h | h <;> simp [headerLines, h]

/-- Claim C7 witness: a bare Issue-typed record renders exactly three lines,
and a Page record with a non-empty name renders a type-only header with no
Name line. -/
theorem C7_minimal_output_witness :
    contentLines (bareContent "x1" (some ContentType.Issue)) =
      ["**Content ID:** x1", "**Type:** [Issue]", "**Name:** null"] ∧
    headerLines C7pageNamed = ["**Type:** [Page]"] :=
  ⟨((C7_minimal_output_and_name_suppression.1 "x1"
      (some ContentType.Issue)).trans (by decide)),
   ((C7_minimal_output_and_name_suppression.2.2 C7pageNamed
      (Or.inl rfl)).trans (by decide))⟩

/-- Claim C9 counterexample: the dereference fetch is keyed on the raw
source `uri` field, not a downloadable URI - an Image record whose
downloadable original URI is non-empty but whose `uri` is absent yields one
block, not two, although the stub fetch would succeed; and the contents
dereference is not the only secondary fetch site - the `retrieveImages`
tool fetches the caller-supplied URL, feeding the base64 bytes and detected
media type into its remote query filter, and propagates a fetch failure
even when the remote platform call itself would succeed. -/
theorem C9_counterexample :
    contentResourceHandlerImage "contents://img2"
        (Except.ok (some C9masterOnlyRec)) C9fetchStub =
      { contents :=
          [{ uri := "contents://img2",
             text := some (formatContentUriRev (some C9masterOnlyRec)),
             mimeType := "text/markdown" }] } ∧
    retrieveImagesFetched "https://images.example/query.png" C9fetchStub =
      Except.ok (some "QkFTRTY0", some "image/png") ∧
    retrieveImagesHandler "https://images.example/query.png"
        (fun _ => Except.error "network unreachable") (fun _ => Except.ok []) =
      Except.error "network unreachable" := by
  refine ⟨by decide, rfl, rfl⟩

/-- Claim C9 (amended): dereferencing `contents://{id}` for a successfully
fetched record with file-type Image and a truthy raw source `uri` field
whose secondary fetch succeeds returns exactly two blocks - the formatted
markdown text block and a base64 blob block with the detected media type
(defaulting to application/octet-stream when the content-type header is
falsy); an Image record without a truthy `uri` (even one with a downloadable
URI), or any non-Image record, returns exactly the single formatted text
block.  This is one of two secondary-fetch sites: the `retrieveImages` tool
also fetches the caller-supplied image URL into its query filter, and
propagates a fetch failure. -/
theorem C9_image_dereference (uriStr : String)
    (fetchImage : String → Except String FetchOk) :
    (∀ (c : Content) (f : FetchOk), c.fileType = some "Image" →
      jsTruthyStr c.uri = true →
      fetchImage (c.uri.getD "") = Except.ok f →
      contentResourceHandlerImage uriStr (Except.ok (some c)) fetchImage =
        { contents :=
            [{ uri := uriStr, text := some (formatContentUriRev (some c)),
               mimeType := "text/markdown" },
             { uri := uriStr, blob := some f.base64,
               mimeType :=
                 if jsTruthyStr f.contentTypeHeader then
                   f.contentTypeHeader.getD ""
                 else "application/octet-stream" }] }) ∧
    (∀ c : Content, c.fileType = some "Image" → jsTruthyStr c.uri = false →
      contentResourceHandlerImage uriStr (Except.ok (some c)) fetchImage =
        { contents :=
            [{ uri := uriStr,
               text := some (formatContentUriRev (some c)),
               mimeType := "text/markdown" }] }) ∧
    (∀ c : Content, c.fileType ≠ some "Image" →
      contentResourceHandlerImage uriStr (Except.ok (some c)) fetchImage =
        { contents :=
            [{ uri := uriStr,
               text := some (formatContentUriRev (some c)),
               mimeType := "text/markdown" }] }) ∧
    (∀ (url : String) (fetchFn : String → Except String FetchOk) (f : FetchOk),
      url.isEmpty = false → fetchFn url = Except.ok f →
      retrieveImagesFetched url fetchFn =
        Except.ok (some f.base64,
          some (if jsTruthyStr f.contentTypeHeader then
                  f.contentTypeHeader.getD ""
                else "application/octet-stream"))) ∧
    (∀ (url : String) (fetchFn : String → Except String FetchOk) (m : String)
        remote,
      url.isEmpty = false → fetchFn url = Except.error m →
      retrieveImagesHandler url fetchFn remote = Except.error m) := by
  refine ⟨?_, ?_, ?_, ?_, ?_⟩
  · intro c f himg huri hfetch
    simp [contentResourceHandlerImage, Option.bind, himg, huri, hfetch]
  · intro c himg huri
    simp [contentResourceHandlerImage, Option.bind, himg, huri]
  · intro c himg
    simp [contentResourceHandlerImage, Option.bind, himg]
  · intro url fetchFn f hurl hfetch
    simp [retrieveImagesFetched, hurl, hfetch]
  · intro url fetchFn m remote hurl hfetch
    simp [retrieveImagesHandler, retrieveImagesFetched, hurl, hfetch]

/-- Claim C9 witness: on the concrete Image record with the stub fetch, the
dereference returns the formatted text block plus the base64 blob block with
media type image/png; and the retrieveImages fetch of a concrete URL feeds
the stub bytes and media type into the query filter. -/
theorem C9_image_dereference_witness :
    (contentResourceHandlerImage "contents://img1" (Except.ok (some C9imageRec))
        C9fetchStub =
      { contents :=
          [{ uri := "contents://img1",
             text := some (formatContentUriRev (some C9imageRec)),
             mimeType := "text/markdown" },
           { uri := "contents://img1", blob := some "QkFTRTY0",
             mimeType := "image/png" }] }) ∧
    retrieveImagesFetched "https://images.example/q2.png" C9fetchStub =
      Except.ok (some "QkFTRTY0", some "image/png") :=
  ⟨((C9_image_dereference "contents://img1" C9fetchStub).1 C9imageRec
      { base64 := "QkFTRTY0", contentTypeHeader := some "image/png" }
      rfl rfl rfl).trans (by decide),
   ((C9_image_dereference "contents://img1" C9fetchStub).2.2.2.1
      "https://images.example/q2.png" C9fetchStub
      { base64 := "QkFTRTY0", contentTypeHeader := some "image/png" }
      rfl rfl).trans rfl⟩

end GraphlitMcp
